import Mathlib

/-!
Verification of `simple_server.py` and
`jules-scratch/verification/verify_compact_ui.py`.

Paths, URLs and request targets are modelled as `List Char` (Python `str`
semantics is character-based); content-type strings stay as `String`.
The behaviour of the standard library (the superclass `guess_type`, the
default request handlers, the operating system's notion of a bindable
port, and the outcome of serving) is abstracted as function parameters,
since only this repository's code is under verification.
-/

namespace SimpleServer

/-- Python `str.endswith`: `path.endswith(suffix)` holds exactly when
`suffix` is a suffix of the character sequence of `path`. -/
def endswith (path suffix : List Char) : Bool :=
  suffix.isSuffixOf path

/-- `CustomHTTPRequestHandler.guess_type`, with the superclass
`guess_type` (the platform default guesser) passed in as `d`.  The source
first calls the superclass, then overrides the mimetype for a fixed list
of suffix checks, keeping the encoding component. -/
def guess_type (d : List Char → String × Option String)
    (path : List Char) : String × Option String :=
  let mimetype := (d path).1
  let encoding := (d path).2
  if endswith path ".tsx".data || endswith path ".ts".data then
    ("application/javascript", encoding)
  else if endswith path ".jsx".data || endswith path ".js".data then
    ("application/javascript", encoding)
  else if endswith path ".json".data then
    ("application/json", encoding)
  else if endswith path ".css".data then
    ("text/css", encoding)
  else if endswith path ".html".data then
    ("text/html", encoding)
  else if endswith path ".svg".data then
    ("image/svg+xml", encoding)
  else if endswith path ".ico".data then
    ("image/x-icon", encoding)
  else
    (mimetype, encoding)

/-- The fixed override suffix set of `guess_type`. -/
def overrideSuffixes : List (List Char) :=
  [".tsx".data, ".ts".data, ".jsx".data, ".js".data, ".json".data,
   ".css".data, ".html".data, ".svg".data, ".ico".data]

/-- Two mutually non-suffix strings cannot both be suffixes of the same
path: suffixes of a common list are totally ordered by the suffix
relation. -/
theorem not_endswith (p s t : List Char) (h : endswith p s = true)
    (hst : ¬ s <:+ t) (hts : ¬ t <:+ s) : endswith p t = false := by
  have hs : s <:+ p := by
    simpa [endswith, List.isSuffixOf_iff_suffix] using h
  rw [endswith, Bool.eq_false_iff]
  intro hT
  have ht : t <:+ p := by
    simpa [List.isSuffixOf_iff_suffix] using hT
  rcases List.suffix_or_suffix_of_suffix ht hs with h' | h'
  · exact hts h'
  · exact hst h'

/-- C1: for every path ending in one of the override suffixes
`.tsx .ts .jsx .js .json .css .html .svg .ico`, `guess_type` returns the
documented fixed content-type, regardless of the platform default
guesser `d`. -/
theorem guess_type_override (d : List Char → String × Option String)
    (p : List Char) :
    (endswith p ".tsx".data = true →
      (guess_type d p).1 = "application/javascript") ∧
    (endswith p ".ts".data = true →
      (guess_type d p).1 = "application/javascript") ∧
    (endswith p ".jsx".data = true →
      (guess_type d p).1 = "application/javascript") ∧
    (endswith p ".js".data = true →
      (guess_type d p).1 = "application/javascript") ∧
    (endswith p ".json".data = true →
      (guess_type d p).1 = "application/json") ∧
    (endswith p ".css".data = true →
      (guess_type d p).1 = "text/css") ∧
    (endswith p ".html".data = true →
      (guess_type d p).1 = "text/html") ∧
    (endswith p ".svg".data = true →
      (guess_type d p).1 = "image/svg+xml") ∧
    (endswith p ".ico".data = true →
      (guess_type d p).1 = "image/x-icon") := by
  refine ⟨?_, ?_, ?_, ?_, ?_, ?_, ?_, ?_, ?_⟩ <;> intro h
  · simp [guess_type, h]
  · simp [guess_type, h]
  · have h1 := not_endswith p ".jsx".data ".tsx".data h (by decide) (by decide)
    have h2 := not_endswith p ".jsx".data ".ts".data h (by decide) (by decide)
    simp [guess_type, h, h1, h2]
  · have h1 := not_endswith p ".js".data ".tsx".data h (by decide) (by decide)
    have h2 := not_endswith p ".js".data ".ts".data h (by decide) (by decide)
    simp [guess_type, h, h1, h2]
  · have h1 := not_endswith p ".json".data ".tsx".data h (by decide) (by decide)
    have h2 := not_endswith p ".json".data ".ts".data h (by decide) (by decide)
    have h3 := not_endswith p ".json".data ".jsx".data h (by decide) (by decide)
    have h4 := not_endswith p ".json".data ".js".data h (by decide) (by decide)
    simp [guess_type, h, h1, h2, h3, h4]
  · have h1 := not_endswith p ".css".data ".tsx".data h (by decide) (by decide)
    have h2 := not_endswith p ".css".data ".ts".data h (by decide) (by decide)
    have h3 := not_endswith p ".css".data ".jsx".data h (by decide) (by decide)
    have h4 := not_endswith p ".css".data ".js".data h (by decide) (by decide)
    have h5 := not_endswith p ".css".data ".json".data h (by decide) (by decide)
    simp [guess_type, h, h1, h2, h3, h4, h5]
  · have h1 := not_endswith p ".html".data ".tsx".data h (by decide) (by decide)
    have h2 := not_endswith p ".html".data ".ts".data h (by decide) (by decide)
    have h3 := not_endswith p ".html".data ".jsx".data h (by decide) (by decide)
    have h4 := not_endswith p ".html".data ".js".data h (by decide) (by decide)
    have h5 := not_endswith p ".html".data ".json".data h (by decide) (by decide)
    have h6 := not_endswith p ".html".data ".css".data h (by decide) (by decide)
    simp [guess_type, h, h1, h2, h3, h4, h5, h6]
  · have h1 := not_endswith p ".svg".data ".tsx".data h (by decide) (by decide)
    have h2 := not_endswith p ".svg".data ".ts".data h (by decide) (by decide)
    have h3 := not_endswith p ".svg".data ".jsx".data h (by decide) (by decide)
    have h4 := not_endswith p ".svg".data ".js".data h (by decide) (by decide)
    have h5 := not_endswith p ".svg".data ".json".data h (by decide) (by decide)
    have h6 := not_endswith p ".svg".data ".css".data h (by decide) (by decide)
    have h7 := not_endswith p ".svg".data ".html".data h (by decide) (by decide)
    simp [guess_type, h, h1, h2, h3, h4, h5, h6, h7]
  · have h1 := not_endswith p ".ico".data ".tsx".data h (by decide) (by decide)
    have h2 := not_endswith p ".ico".data ".ts".data h (by decide) (by decide)
    have h3 := not_endswith p ".ico".data ".jsx".data h (by decide) (by decide)
    have h4 := not_endswith p ".ico".data ".js".data h (by decide) (by decide)
    have h5 := not_endswith p ".ico".data ".json".data h (by decide) (by decide)
    have h6 := not_endswith p ".ico".data ".css".data h (by decide) (by decide)
    have h7 := not_endswith p ".ico".data ".html".data h (by decide) (by decide)
    have h8 := not_endswith p ".ico".data ".svg".data h (by decide) (by decide)
    simp [guess_type, h, h1, h2, h3, h4, h5, h6, h7, h8]

/-- Witness for C1: the `.tsx` branch at a concrete path and default
guesser. -/
theorem guess_type_override_witness :
    (guess_type (fun _ => ("text/plain", none)) "/app.tsx".data).1 =
      "application/javascript" :=
  (guess_type_override (fun _ => ("text/plain", none)) "/app.tsx".data).1
    (by decide)

/-- C2: for every path ending in none of the override suffixes,
`guess_type` returns exactly the platform default guesser's result. -/
theorem guess_type_passthrough (d : List Char → String × Option String)
    (p : List Char) (h : ∀ s ∈ overrideSuffixes, endswith p s = false) :
    guess_type d p = d p := by
  have h1 := h ".tsx".data (by simp [overrideSuffixes])
  have h2 := h ".ts".data (by simp [overrideSuffixes])
  have h3 := h ".jsx".data (by simp [overrideSuffixes])
  have h4 := h ".js".data (by simp [overrideSuffixes])
  have h5 := h ".json".data (by simp [overrideSuffixes])
  have h6 := h ".css".data (by simp [overrideSuffixes])
  have h7 := h ".html".data (by simp [overrideSuffixes])
  have h8 := h ".svg".data (by simp [overrideSuffixes])
  have h9 := h ".ico".data (by simp [overrideSuffixes])
  simp [guess_type, h1, h2, h3, h4, h5, h6, h7, h8, h9]

/-- Witness for C2: a `.xyz` path is passed through unchanged. -/
theorem guess_type_passthrough_witness :
    guess_type (fun _ => ("chemical/x-xyz", some "gzip")) "/file.xyz".data =
      ("chemical/x-xyz", some "gzip") :=
  guess_type_passthrough (fun _ => ("chemical/x-xyz", some "gzip"))
    "/file.xyz".data (by decide)

/-- The path component that `urllib.parse.urlparse` extracts from an
HTTP origin-form request target (a target starting with `/` but not
`//`, as the handler receives for ordinary requests): the characters
before the first `?` (query) or `#` (fragment). -/
def urlparsePath (url : List Char) : List Char :=
  url.takeWhile (fun c => !(c == '?') && !(c == '#'))

/-- A handler step either sends a response itself (status plus the
headers it sets explicitly) or delegates to the inherited
`SimpleHTTPRequestHandler` behaviour. -/
inductive HTTPAction where
  | respond (status : Nat) (headers : List (String × String))
  | delegate
deriving DecidableEq

/-- `CustomHTTPRequestHandler.do_GET`: parse the request target, redirect
`/` to the standalone page, answer `/favicon.ico` with 404, and delegate
everything else to the superclass. -/
def do_GET (target : List Char) : HTTPAction :=
  let parsed_path := urlparsePath target
  if parsed_path = "/".data then
    .respond 302 [("Location", "/index-standalone.html")]
  else if parsed_path = "/favicon.ico".data then
    .respond 404 []
  else
    .delegate

/-- The inherited `SimpleHTTPRequestHandler` GET behaviour for
regular-file paths, with the filesystem abstracted as the predicate
`fileExists`: 200 with the content type computed by `guess_type` when the
file exists, 404 otherwise. -/
def defaultServe (d : List Char → String × Option String)
    (fileExists : List Char → Bool) (path : List Char) :
    Nat × List (String × String) :=
  if fileExists path then
    (200, [("Content-type", (guess_type d path).1)])
  else
    (404, [])

/-- A full GET exchange: the override `do_GET` runs first; only when it
delegates does the inherited file-serving behaviour run. -/
def handleGET (d : List Char → String × Option String)
    (fileExists : List Char → Bool) (target : List Char) :
    Nat × List (String × String) :=
  match do_GET target with
  | .respond s hs => (s, hs)
  | .delegate => defaultServe d fileExists (urlparsePath target)

/-- Method dispatch of `BaseHTTPRequestHandler`: the class overrides only
`do_GET`, so every other method name is handled by the inherited handler
`d`; a delegating `do_GET` also falls back to the inherited GET
handler. -/
def dispatch (d : String → List Char → HTTPAction) (command : String)
    (target : List Char) : HTTPAction :=
  if command = "GET" then
    match do_GET target with
    | .delegate => d "GET" target
    | r => r
  else
    d command target

/-- C3: a GET whose parsed path component is exactly `/` is answered with
302 and `Location: /index-standalone.html`, never reaching the default
file serving. -/
theorem root_redirect (target : List Char)
    (h : urlparsePath target = "/".data) :
    do_GET target = .respond 302 [("Location", "/index-standalone.html")] := by
  simp [do_GET, h]

/-- Witness for C3 at the literal target `/`. -/
theorem root_redirect_witness :
    do_GET "/".data =
      .respond 302 [("Location", "/index-standalone.html")] :=
  root_redirect "/".data (by decide)

/-- C4: a GET whose parsed path component is `/favicon.ico` is answered
with 404 and no headers, for every filesystem state — the default
file lookup is never consulted. -/
theorem favicon_always_404 (d : List Char → String × Option String)
    (fileExists : List Char → Bool) (target : List Char)
    (h : urlparsePath target = "/favicon.ico".data) :
    do_GET target = .respond 404 [] ∧
    handleGET d fileExists target = (404, []) := by
  have hne : urlparsePath target ≠ "/".data := by
    rw [h]; decide
  constructor
  · simp [do_GET, h, hne]
  · simp [handleGET, do_GET, h, hne]

/-- Witness for C4: even with a filesystem on which every file exists
(including `/favicon.ico`), the response is 404. -/
theorem favicon_always_404_witness :
    handleGET (fun _ => ("text/plain", none)) (fun _ => true)
      "/favicon.ico".data = (404, []) :=
  (favicon_always_404 (fun _ => ("text/plain", none)) (fun _ => true)
    "/favicon.ico".data (by decide)).2

/-- C9: routing depends only on the parsed path component, not on the
query string: appending `?q` to `/` or to `/favicon.ico` leaves the
handler's decision unchanged, for every query string `q`. -/
theorem routing_ignores_query (q : List Char) :
    do_GET ("/?".data ++ q) = do_GET "/".data ∧
    do_GET ("/favicon.ico?".data ++ q) = do_GET "/favicon.ico".data := by
  have h1 : urlparsePath ("/?".data ++ q) = "/".data := by
    simp [urlparsePath, List.takeWhile_cons]
  have h2 : urlparsePath ("/favicon.ico?".data ++ q) =
      "/favicon.ico".data := by
    simp [urlparsePath, List.takeWhile_cons]
  rw [do_GET, do_GET, h1]
  rw [do_GET, do_GET, h2]
  constructor
  · simp [urlparsePath]
  · simp [urlparsePath]

/-- C10: only `do_GET` is overridden — every non-GET method is handled
exactly by the inherited handler, so in particular a HEAD to `/` gets
whatever the default library handler returns, not the custom redirect. -/
theorem non_get_passthrough (d : String → List Char → HTTPAction)
    (command : String) (target : List Char) (h : command ≠ "GET") :
    dispatch d command target = d command target := by
  simp [dispatch, h]

/-- Witness for C10: a HEAD to `/` falls through to the default handler
(here one that always delegates), and is not the 302 redirect. -/
theorem non_get_passthrough_witness :
    dispatch (fun _ _ => .delegate) "HEAD" "/".data = .delegate ∧
    dispatch (fun _ _ => .delegate) "HEAD" "/".data ≠
      .respond 302 [("Location", "/index-standalone.html")] := by
  have h := non_get_passthrough (fun _ _ => .delegate) "HEAD" "/".data
    (by decide)
  exact ⟨h, by rw [h]; decide⟩

/-- The probing loop of `find_free_port`: at most `remaining` more
candidate ports are tried starting from `port`; `free` abstracts the
operating system's answer to the bind probe at the moment it is made.
`none` models the `RuntimeError("Could not find a free port")`. -/
def findFreePortLoop (free : Nat → Bool) (port remaining : Nat) :
    Option Nat :=
  match remaining with
  | 0 => none
  | n + 1 => if free port then some port else findFreePortLoop free (port + 1) n

/-- `find_free_port`: probe the 100 consecutive ports
`start_port, …, start_port + 99` and return the first that binds. -/
def find_free_port (free : Nat → Bool) (start_port : Nat) : Option Nat :=
  findFreePortLoop free start_port 100

theorem findFreePortLoop_some (free : Nat → Bool) (port remaining p : Nat)
    (h : findFreePortLoop free port remaining = some p) :
    port ≤ p ∧ p < port + remaining ∧ free p = true ∧
      ∀ q, port ≤ q → q < p → free q = false := by
  induction remaining generalizing port with
  | zero => simp [findFreePortLoop] at h
  | succ n ih =>
    rw [findFreePortLoop] at h
    by_cases hf : free port = true
    · rw [if_pos hf, Option.some.injEq] at h
      subst h
      exact ⟨le_refl _, by omega, hf, fun q hq hq' => absurd hq (by omega)⟩
    · rw [if_neg hf] at h
      obtain ⟨h1, h2, h3, h4⟩ := ih (port + 1) h
      refine ⟨by omega, by omega, h3, fun q hq hq' => ?_⟩
      rcases Nat.eq_or_lt_of_le hq with rfl | hlt
      · exact Bool.eq_false_iff.mpr hf
      · exact h4 q hlt hq'

theorem findFreePortLoop_none (free : Nat → Bool) (port remaining : Nat) :
    findFreePortLoop free port remaining = none ↔
      ∀ q, port ≤ q → q < port + remaining → free q = false := by
  induction remaining generalizing port with
  | zero => simp [findFreePortLoop]; omega
  | succ n ih =>
    rw [findFreePortLoop]
    by_cases hf : free port = true
    · simp only [if_pos hf]
      constructor
      · intro h; exact absurd h (by simp)
      · intro h
        have := h port (le_refl _) (by omega)
        rw [hf] at this; exact absurd this (by simp)
    · simp only [if_neg hf, ih]
      constructor
      · intro h q hq hq'
        rcases Nat.eq_or_lt_of_le hq with rfl | hlt
        · exact Bool.eq_false_iff.mpr hf
        · exact h q hlt (by omega)
      · intro h q hq hq'
        exact h q (by omega) (by omega)

theorem findFreePortLoop_congr (free g : Nat → Bool) (port remaining : Nat)
    (h : ∀ q, port ≤ q → q < port + remaining → free q = g q) :
    findFreePortLoop free port remaining =
      findFreePortLoop g port remaining := by
  induction remaining generalizing port with
  | zero => rfl
  | succ n ih =>
    rw [findFreePortLoop, findFreePortLoop,
      h port (le_refl _) (by omega)]
    by_cases hg : g port = true
    · rw [if_pos hg, if_pos hg]
    · rw [if_neg hg, if_neg hg]
      exact ih (port + 1) (fun q hq hq' => h q (by omega) (by omega))

/-- C5: when the search returns a port `p`, then `p` is at or above the
start, the bind probe succeeded on `p`, and every port from the start up
to `p` was probed and failed to bind. -/
theorem find_free_port_some (free : Nat → Bool) (s p : Nat)
    (h : find_free_port free s = some p) :
    s ≤ p ∧ free p = true ∧ ∀ q, s ≤ q → q < p → free q = false := by
  obtain ⟨h1, _, h3, h4⟩ := findFreePortLoop_some free s 100 p h
  exact ⟨h1, h3, h4⟩

/-- Witness for C5: with ports 8080 and 8081 occupied and 8082 free, the
search returns 8082, which is ≥ 8080, bindable, and preceded only by
failed probes. -/
theorem find_free_port_some_witness :
    find_free_port (fun q => 8082 ≤ q) 8080 = some 8082 ∧
    (8080 ≤ 8082 ∧ (fun (q : Nat) => decide (8082 ≤ q)) 8082 = true ∧
      ∀ q, 8080 ≤ q → q < 8082 →
        (fun (q : Nat) => decide (8082 ≤ q)) q = false) :=
  ⟨by decide, find_free_port_some (fun q => 8082 ≤ q) 8080 8082 (by decide)⟩

/-- C6: the search raises the port-exhaustion error exactly when all 100
candidates `s, …, s + 99` fail to bind, and its outcome never depends on
any port at or above `s + 100` (no such port is probed). -/
theorem find_free_port_exhaustion (free : Nat → Bool) (s : Nat) :
    (find_free_port free s = none ↔
      ∀ q, s ≤ q → q < s + 100 → free q = false) ∧
    (∀ g : Nat → Bool, (∀ q, s ≤ q → q < s + 100 → free q = g q) →
      find_free_port free s = find_free_port g s) := by
  exact ⟨findFreePortLoop_none free s 100,
    fun g hg => findFreePortLoop_congr free g s 100 hg⟩

/-- Witness for C6: with every port busy the search fails, and changing
only ports at or above `s + 100` cannot change the outcome. -/
theorem find_free_port_exhaustion_witness :
    find_free_port (fun _ => false) 8080 = none ∧
    find_free_port (fun _ => false) 8080 =
      find_free_port (fun q => 8180 ≤ q) 8080 :=
  ⟨(find_free_port_exhaustion (fun _ => false) 8080).1.mpr
      (fun _ _ _ => rfl),
   (find_free_port_exhaustion (fun _ => false) 8080).2
      (fun q => 8180 ≤ q) (fun q _ hq' => by simp; omega)⟩

/-- The startup banner `main` prints once a port has been found (the
second line is `"=" * 50`). -/
def bannerLines (port : Nat) : List String :=
  ["🚀 Interactive CNN Trainer - Python HTTP Server",
   String.mk (List.replicate 50 '='),
   "🌐 Starting server on port " ++ toString port ++ "...",
   "   Open your browser and navigate to:",
   "   ",
   "   http://localhost:" ++ toString port,
   "   ",
   "   The server will automatically redirect to the standalone version",
   "   Press Ctrl+C to stop the server",
   ""]

/-- How the serving phase (chdir, bind, `serve_forever`) ends.
`serve_forever` loops until an exception escapes, so the phase ends
either with a `KeyboardInterrupt` (not an `Exception` subclass in
Python, caught by its own clause) or with some `Exception` carrying a
message. -/
inductive ServeOutcome where
  | keyboardInterrupt
  | exception (msg : String)
deriving DecidableEq

/-- `main`: find a free port starting at 8080 (a failure raises
`RuntimeError("Could not find a free port")`, caught by the
`except Exception` clause), print the banner, then serve.  The result is
the list of lines printed and the process exit status: falling off the
end after the `KeyboardInterrupt` clause exits 0, the `except Exception`
clause calls `sys.exit(1)`. -/
def main (free : Nat → Bool) (serve : Nat → ServeOutcome) :
    List String × Nat :=
  match find_free_port free 8080 with
  | none => (["❌ Error starting server: Could not find a free port"], 1)
  | some port =>
      match serve port with
      | .keyboardInterrupt =>
          (bannerLines port ++ ["\n🛑 Server stopped by user"], 0)
      | .exception m =>
          (bannerLines port ++ ["❌ Error starting server: " ++ m], 1)

/-- C7: a keyboard interrupt ends the run with the shutdown message and
exit status 0; any other exception escaping startup or serving —
including port exhaustion — prints a symbol-prefixed error message and
exits with status 1. -/
theorem main_exit_behaviour (free : Nat → Bool)
    (serve : Nat → ServeOutcome) :
    (∀ port, find_free_port free 8080 = some port →
      serve port = .keyboardInterrupt →
      main free serve =
        (bannerLines port ++ ["\n🛑 Server stopped by user"], 0)) ∧
    (∀ port m, find_free_port free 8080 = some port →
      serve port = .exception m →
      main free serve =
        (bannerLines port ++ ["❌ Error starting server: " ++ m], 1)) ∧
    (find_free_port free 8080 = none →
      main free serve =
        (["❌ Error starting server: Could not find a free port"], 1)) := by
  refine ⟨?_, ?_, ?_⟩
  · intro port hp hs
    simp [main, hp, hs]
  · intro port m hp hs
    simp [main, hp, hs]
  · intro hn
    simp [main, hn]

/-- Witness for C7: all three cases at concrete inputs — interrupt exits
0 with the shutdown message, a permission error exits 1, port exhaustion
exits 1. -/
theorem main_exit_behaviour_witness :
    main (fun _ => true) (fun _ => .keyboardInterrupt) =
      (bannerLines 8080 ++ ["\n🛑 Server stopped by user"], 0) ∧
    main (fun _ => true) (fun _ => .exception "Permission denied") =
      (bannerLines 8080 ++
        ["❌ Error starting server: " ++ "Permission denied"], 1) ∧
    main (fun _ => false) (fun _ => .keyboardInterrupt) =
      (["❌ Error starting server: Could not find a free port"], 1) :=
  ⟨(main_exit_behaviour (fun _ => true)
      (fun _ => .keyboardInterrupt)).1 8080 (by decide) rfl,
   (main_exit_behaviour (fun _ => true)
      (fun _ => .exception "Permission denied")).2.1 8080
      "Permission denied" (by decide) rfl,
   (main_exit_behaviour (fun _ => false)
      (fun _ => .keyboardInterrupt)).2.2 (by decide)⟩

end SimpleServer

namespace VerifyCompactUI

/-- One observable playwright call made by the verification script.  The
`screenshot` action records the effective `full_page` option: the Python
call passes only `path`, and playwright documents that an omitted
`full_page` defaults to `false` (screenshot of the viewport only, not
the full scrollable page). -/
inductive BrowserAction where
  | launch
  | newPage
  | setViewportSize (width height : Nat)
  | goto (url : String)
  | screenshot (path : String) (full_page : Bool)
  | close
deriving DecidableEq

/-- The browser-automation state threaded through the script: what has
been configured so far, plus the trace of calls in program order. -/
structure BrowserState where
  launched : Bool
  viewport : Option (Nat × Nat)
  currentURL : Option String
  closed : Bool
  trace : List BrowserAction
deriving DecidableEq

def initialState : BrowserState :=
  { launched := false, viewport := none, currentURL := none,
    closed := false, trace := [] }

def launch (s : BrowserState) : BrowserState :=
  { s with launched := true, trace := s.trace ++ [.launch] }

def new_page (s : BrowserState) : BrowserState :=
  { s with trace := s.trace ++ [.newPage] }

def set_viewport_size (w h : Nat) (s : BrowserState) : BrowserState :=
  { s with viewport := some (w, h),
           trace := s.trace ++ [.setViewportSize w h] }

def goto (url : String) (s : BrowserState) : BrowserState :=
  { s with currentURL := some url, trace := s.trace ++ [.goto url] }

/-- playwright `Page.screenshot`; `full_page` is the resolved value of
the option (`false` when the caller omits it). -/
def screenshot (path : String) (full_page : Bool)
    (s : BrowserState) : BrowserState :=
  { s with trace := s.trace ++ [.screenshot path full_page] }

def close (s : BrowserState) : BrowserState :=
  { s with closed := true, trace := s.trace ++ [.close] }

/-- `run` from `verify_compact_ui.py`: launch, open a page, set the
viewport to 375×667, navigate to the hardcoded URL, take a screenshot to
the fixed path (no `full_page` argument, so the viewport-only default),
close the browser. -/
def run (s : BrowserState) : BrowserState :=
  let browser := launch s
  let page := new_page browser
  let page := set_viewport_size 375 667 page
  let page := goto "http://localhost:5173/" page
  let page := screenshot
    "jules-scratch/verification/compact_ui_verification.png" false page
  close page

/-- C8 counterexample: the script never takes a full-page screenshot —
the one screenshot call resolves `full_page` to `false` (the playwright
default, since the source passes only `path`), so the claimed "full-page
screenshot" step does not occur in the trace. -/
theorem run_no_fullpage_screenshot :
    BrowserAction.screenshot
        "jules-scratch/verification/compact_ui_verification.png" false ∈
      (run initialState).trace ∧
    BrowserAction.screenshot
        "jules-scratch/verification/compact_ui_verification.png" true ∉
      (run initialState).trace := by
  decide

/-- C8 (amended): the script executes the fixed linear sequence —
launch, new page, viewport 375×667, navigate to the hardcoded URL,
screenshot of the navigated page to the fixed path with the
viewport-only default (not full-page), close — and ends with the
browser closed and the navigated URL current. -/
theorem run_linear_sequence :
    (run initialState).trace =
      [.launch, .newPage, .setViewportSize 375 667,
       .goto "http://localhost:5173/",
       .screenshot "jules-scratch/verification/compact_ui_verification.png"
         false,
       .close] ∧
    (run initialState).currentURL = some "http://localhost:5173/" ∧
    (run initialState).viewport = some (375, 667) ∧
    (run initialState).launched = true ∧
    (run initialState).closed = true := by
  decide

end VerifyCompactUI
